import Mathlib

/-!
# Verification of the O.R.I.O.N / OpenClaw Conductor core

Shallow embedding of the conductor orchestration loop:
* data model (`src/packages/conductor/src/types.ts`),
* result injector (`src/packages/conductor/src/injector.ts`),
* orchestrator authorization handling (`src/packages/conductor/src/conductor.ts`),
* authorization forwarder (`src/packages/conductor/src/forwarder.ts`),
* analyzer ANSI stripping (`src/packages/conductor/src/analyzer.ts`),
* gateway RPC handlers (`src/src/gateway/server-methods/conductor.ts`),
* browser executor (`src/src/conductor/browser-executor.ts`).

Side effects (stdin writes, executor invocations, message sends, timers) are
made explicit as returned effect records; `Date.now()` becomes an explicit
`now : Nat` argument; the injected executor / action runner becomes a function
argument returning `Except` (a thrown JS error is the `.error` case).

JavaScript strings are embedded as Lean `String` / `List Char`; the ASCII
fragments relevant here behave identically under `trim` / `toLowerCase` and
the regexes involved.
-/

set_option linter.unusedVariables false

-- ---------------------------------------------------------------------------
-- Data model (types.ts)
-- ---------------------------------------------------------------------------

/-- `ExternalAccessKind` from types.ts. -/
inductive ExternalAccessKind where
  | urlVisit
  | credentialFetch
  | apiCheck
  | serviceAction
  | fileDownload
  | verification
  | unknown
deriving DecidableEq, Repr

/-- `ConductorDecision` from types.ts. -/
inductive ConductorDecision where
  | approve
  | deny
  | approveWithInstructions
deriving DecidableEq, Repr

/-- `BrowserAction` from types.ts (tagged union). -/
inductive BrowserAction where
  | navigate (url : String)
  | screenshot (selector : Option String)
  | extractText (selector : Option String)
  | click (selector : String)
  | typeInto (selector : String) (text : String)
  | wait (ms : Nat)
  | scrape (url : String) (selectors : List (String × String))
deriving DecidableEq, Repr

/-- The `type` discriminator string of a `BrowserAction`. -/
def BrowserAction.typeStr : BrowserAction → String
  | .navigate _ => "navigate"
  | .screenshot _ => "screenshot"
  | .extractText _ => "extract-text"
  | .click _ => "click"
  | .typeInto _ _ => "type"
  | .wait _ => "wait"
  | .scrape _ _ => "scrape"

/-- `BrowserActionResult` from types.ts. -/
structure BrowserActionResult where
  action : BrowserAction
  success : Bool
  data : Option String := none
  screenshotPath : Option String := none
  error : Option String := none
deriving DecidableEq, Repr

/-- `ExternalAccessRequest` from types.ts. -/
structure ExternalAccessRequest where
  id : String
  kind : ExternalAccessKind
  summary : String
  rawOutput : String
  url : Option String := none
  service : Option String := none
  dataNeeded : Option String := none
  suggestedActions : Option (List BrowserAction) := none
  createdAtMs : Nat
  expiresAtMs : Nat
  sessionKey : Option String := none
deriving DecidableEq, Repr

/-- `ConductorAuthorization` from types.ts. -/
structure ConductorAuthorization where
  requestId : String
  decision : ConductorDecision
  instructions : Option String := none
  resolvedBy : Option String := none
  resolvedAtMs : Nat
deriving DecidableEq, Repr

/-- `ConductorInjection` from types.ts. -/
structure ConductorInjection where
  requestId : String
  success : Bool
  payload : String
  actionResults : Option (List BrowserActionResult) := none
  injectedAtMs : Nat
deriving DecidableEq, Repr

/-- `ConductorHistoryEntry` from types.ts. -/
structure ConductorHistoryEntry where
  request : ExternalAccessRequest
  authorization : Option ConductorAuthorization := none
  injection : Option ConductorInjection := none
  completedAtMs : Nat
deriving DecidableEq, Repr

-- ---------------------------------------------------------------------------
-- JS `Map` semantics over association lists
-- ---------------------------------------------------------------------------

/-- `Map.get(k)` on an insertion-ordered association list. -/
def mapGet {α : Type} (l : List (String × α)) (k : String) : Option α :=
  (l.find? (fun p => p.1 == k)).map (·.2)

/-- `Map.delete(k)`. -/
def mapDelete {α : Type} (l : List (String × α)) (k : String) : List (String × α) :=
  l.filter (fun p => p.1 != k)

/-- `Map.set(k, v)`: replace in place if the key exists, else append. -/
def mapSet {α : Type} (l : List (String × α)) (k : String) (v : α) : List (String × α) :=
  if l.any (fun p => p.1 == k) then
    l.map (fun p => if p.1 == k then (k, v) else p)
  else
    l ++ [(k, v)]

/-- JS truthiness of an optional string (`undefined` and `""` are falsy). -/
def truthy : Option String → Bool
  | some s => !s.isEmpty
  | none => false

-- ---------------------------------------------------------------------------
-- Injector (injector.ts)
-- ---------------------------------------------------------------------------

/-- The separator the source of `injectDenial` puts between summary and reason.
The bytes in injector.ts line 113 are `C3 A2 E2 82 AC E2 80 9D`: the UTF-8
encoding of U+00E2 U+20AC U+201D (an em-dash that was double-encoded), not of
an em-dash U+2014. -/
def denialSeparator : String := "â€”"

/-- One failed-action bullet line of `formatInjectionPayload`. -/
def failLine (r : BrowserActionResult) : String :=
  "  - " ++ r.action.typeStr ++ ": " ++ (r.error.getD "unknown error")

/-- The lines pushed for one successful result inside `formatInjectionPayload`
(`if (result.data)` style guards are JS truthiness on the string). -/
def successLines (r : BrowserActionResult) : List String :=
  match r.action with
  | .navigate url => ["[Aether] Navigated to: " ++ url]
  | .extractText _ =>
      if truthy r.data then ["[Aether] Extracted content:", r.data.getD ""] else []
  | .screenshot _ =>
      if truthy r.screenshotPath then
        ["[Aether] Screenshot saved: " ++ r.screenshotPath.getD ""]
      else []
  | .scrape _ _ =>
      if truthy r.data then ["[Aether] Scraped data:", r.data.getD ""] else []
  | .click selector => ["[Aether] Clicked: " ++ selector]
  | .typeInto selector _ => ["[Aether] Typed into: " ++ selector]
  | _ =>
      if truthy r.data then
        ["[Aether] " ++ r.action.typeStr ++ ": " ++ r.data.getD ""]
      else []

/-- `formatInjectionPayload` from injector.ts. -/
def formatInjectionPayload (request : ExternalAccessRequest)
    (results : List BrowserActionResult) : String :=
  let header := "[Aether] External access result for: " ++ request.summary
  let successfulResults := results.filter (fun r => r.success)
  let failedResults := results.filter (fun r => !r.success)
  if successfulResults.isEmpty && !failedResults.isEmpty then
    String.intercalate "\n"
      (header :: "[Aether] All actions failed:" :: failedResults.map failLine)
  else
    let collected := successfulResults.flatMap successLines
    let failTrailer :=
      if !failedResults.isEmpty then
        "[Aether] Some actions failed:" :: failedResults.map failLine
      else []
    String.intercalate "\n" (header :: (collected ++ failTrailer))

/-- `interceptor.injectLine(text)` writes `text ++ "\n"` to the child's stdin;
an injection is the list of such writes, in order. -/
def injectLineWrite (text : String) : String := text ++ "\n"

/-- `injectResults` from injector.ts: returns the `ConductorInjection` and the
stdin writes it performs. -/
def injectResults (now : Nat) (request : ExternalAccessRequest)
    (results : List BrowserActionResult) : ConductorInjection × List String :=
  let payload := formatInjectionPayload request results
  let success := results.any (fun r => r.success)
  (⟨request.id, success, payload, some results, now⟩,
   [injectLineWrite "", injectLineWrite payload, injectLineWrite ""])

/-- `injectDenial` from injector.ts. -/
def injectDenial (now : Nat) (request : ExternalAccessRequest)
    (reason : Option String) : ConductorInjection × List String :=
  let payload := "[Aether] Request denied: " ++ request.summary ++
    (if truthy reason then " " ++ denialSeparator ++ " " ++ reason.getD "" else "") ++
    ". Proceeding without external access."
  (⟨request.id, false, payload, none, now⟩,
   [injectLineWrite "", injectLineWrite payload, injectLineWrite ""])

/-- `injectTimeout` from injector.ts. -/
def injectTimeout (now : Nat) (request : ExternalAccessRequest) :
    ConductorInjection × List String :=
  let payload := "[Aether] Authorization timed out for: " ++ request.summary ++
    ". Proceeding without external access."
  (⟨request.id, false, payload, none, now⟩,
   [injectLineWrite "", injectLineWrite payload, injectLineWrite ""])

-- ---------------------------------------------------------------------------
-- Orchestrator (conductor.ts): handleAuthorization / executeAndInject
-- ---------------------------------------------------------------------------

/-- The orchestrator session state fields touched by authorization handling
(`ConductorSessionState` from types.ts). -/
structure ConductorState where
  pending : List (String × ExternalAccessRequest) := []
  history : List ConductorHistoryEntry := []
  active : Bool := true
  startedAtMs : Nat := 0
deriving DecidableEq, Repr

/-- An injected `ConductorExecutor`: `.error` models a thrown promise
rejection of `executor.execute`. -/
def Executor : Type :=
  ExternalAccessRequest → ConductorAuthorization → Except String (List BrowserActionResult)

/-- `stubExecutor` from conductor.ts: always resolves with `[]`. -/
def stubExecutor : Executor := fun _ _ => .ok []

/-- Observable side effects of one `handleAuthorization` run. -/
structure HandleEffects where
  /-- stdin writes performed through the interceptor. -/
  writes : List String := []
  /-- invocations of `executor.execute`. -/
  executions : List (ExternalAccessRequest × ConductorAuthorization) := []
  /-- `forwarder.notifyResult` calls. -/
  notifications : List (ExternalAccessRequest × ConductorInjection) := []
deriving DecidableEq, Repr

/-- The empty effect record: nothing injected, executed, or notified. -/
def noEffects : HandleEffects := {}

/-- `Conductor.executeAndInject` from conductor.ts (state already has the id
removed from pending by the caller). -/
def executeAndInject (exec : Executor) (now : Nat) (s : ConductorState)
    (request : ExternalAccessRequest) (auth : ConductorAuthorization) :
    ConductorState × HandleEffects :=
  match exec request auth with
  | .ok results =>
      let iw := injectResults now request results
      ({ s with history := s.history ++ [⟨request, some auth, some iw.1, now⟩] },
       { writes := iw.2, executions := [(request, auth)],
         notifications := [(request, iw.1)] })
  | .error errMsg =>
      let iw := injectDenial now request (some ("execution failed: " ++ errMsg))
      ({ s with history := s.history ++ [⟨request, some auth, some iw.1, now⟩] },
       { writes := iw.2, executions := [(request, auth)], notifications := [] })

/-- `Conductor.handleAuthorization` from conductor.ts. -/
def handleAuthorization (exec : Executor) (now : Nat) (s : ConductorState)
    (auth : ConductorAuthorization) : ConductorState × HandleEffects :=
  match mapGet s.pending auth.requestId with
  | none => (s, noEffects) -- already handled or expired
  | some request =>
      let s1 := { s with pending := mapDelete s.pending auth.requestId }
      match auth.decision with
      | .deny =>
          let iw := injectDenial now request (some "operator denied")
          ({ s1 with history := s1.history ++ [⟨request, some auth, some iw.1, now⟩] },
           { writes := iw.2, executions := [], notifications := [] })
      | _ => executeAndInject exec now s1 request auth

-- ---------------------------------------------------------------------------
-- Authorization forwarder (forwarder.ts)
-- ---------------------------------------------------------------------------

/-- JS `\s` whitespace (the characters relevant to `trim` and `\s+`). -/
def isJsWhitespace (c : Char) : Bool :=
  c = ' ' || c = '\t' || c = '\n' || c = '\r' || c = '\x0B' || c = '\x0C' ||
  c = '\u00A0' || c = '\u2028' || c = '\u2029' || c = '\uFEFF'

/-- JS `String.prototype.trim` on a character list. -/
def jsTrimChars (l : List Char) : List Char :=
  ((l.dropWhile isJsWhitespace).reverse.dropWhile isJsWhitespace).reverse

/-- `msg.text.trim().toLowerCase()` (ASCII lowering; the keywords involved are
ASCII). -/
def normalizeMsg (s : String) : List Char :=
  (jsTrimChars s.toList).map Char.toLower

/-- A pending entry of the forwarder (`PendingRequest` in forwarder.ts): the
request plus the delay of its registered timer. -/
structure FwdPending where
  request : ExternalAccessRequest
  timerMs : Nat
deriving DecidableEq, Repr

/-- A messaging target (`ConductorForwardTarget` in types.ts); the `to` field
is named `toId` because `to` is reserved in Lean. -/
structure FwdTarget where
  channel : String
  toId : String
  accountId : Option String := none
  threadId : Option String := none
deriving DecidableEq, Repr

/-- `ConductorAuthConfig` from types.ts (all fields optional). -/
structure ConductorAuthConfig where
  targets : Option (List FwdTarget) := none
  timeoutMs : Option Nat := none
  autoApprovePatterns : Option (List String) := none
  autoDenyPatterns : Option (List String) := none
deriving DecidableEq, Repr

/-- The string form of an `ExternalAccessKind` discriminator. -/
def ExternalAccessKind.str : ExternalAccessKind → String
  | .urlVisit => "url-visit"
  | .credentialFetch => "credential-fetch"
  | .apiCheck => "api-check"
  | .serviceAction => "service-action"
  | .fileDownload => "file-download"
  | .verification => "verification"
  | .unknown => "unknown"

/-- `Math.round(d / 1000)` for a signed millisecond difference `d`
(round half toward positive infinity, i.e. `⌊d/1000 + 1/2⌋`). -/
def jsRoundDiv1000 (d : Int) : Int := Int.fdiv (2 * d + 1000) 2000

/-- `formatAuthorizationRequest` from forwarder.ts. -/
def formatAuthorizationRequest (now : Nat) (request : ExternalAccessRequest) : String :=
  let shortId := request.id.take 8
  let expiresIn := jsRoundDiv1000 ((request.expiresAtMs : Int) - (now : Int))
  let lines :=
    ["AETHER CONDUCTOR — Authorization Request [" ++ shortId ++ "]",
     "",
     "Claude needs external access:",
     "  Kind: " ++ request.kind.str,
     "  Summary: " ++ request.summary] ++
    (if truthy request.url then ["  URL: " ++ request.url.getD ""] else []) ++
    (if truthy request.service then ["  Service: " ++ request.service.getD ""] else []) ++
    (if truthy request.dataNeeded then ["  Data needed: " ++ request.dataNeeded.getD ""] else []) ++
    ["",
     "Reply \"YES\" to approve, \"NO\" to deny.",
     "Reply \"YES <instructions>\" to approve with extra guidance.",
     "Expires in " ++ toString expiresIn ++ "s."]
  String.intercalate "\n" lines

/-- Observable effects of one `requestAuthorization` call. -/
structure FwdEffects where
  /-- best-effort sends, one per configured target. -/
  sends : List (FwdTarget × String) := []
  /-- the delay of the timeout timer registered by this call, if any. -/
  timerRegistered : Option Nat := none
deriving DecidableEq, Repr

/-- `createConductorForwarder(...).requestAuthorization` from forwarder.ts. -/
def requestAuthorization (cfg : ConductorAuthConfig) (now : Nat)
    (pending : List (String × FwdPending)) (request : ExternalAccessRequest) :
    List (String × FwdPending) × FwdEffects :=
  let targets := cfg.targets.getD []
  if targets.isEmpty then (pending, {})
  else
    let message := formatAuthorizationRequest now request
    let timeoutMs := cfg.timeoutMs.getD 120000
    (mapSet pending request.id ⟨request, timeoutMs⟩,
     { sends := targets.map (fun t => (t, message)), timerRegistered := some timeoutMs })

/-- The timeout timer callback registered by `requestAuthorization`
(forwarder.ts lines 123–135): if the id is still pending, drop it and emit a
deny authorization resolved by `"timeout"`. -/
def fireTimeout (now : Nat) (pending : List (String × FwdPending)) (id : String) :
    List (String × FwdPending) × Option ConductorAuthorization :=
  match mapGet pending id with
  | some _ => (mapDelete pending id, some ⟨id, .deny, none, some "timeout", now⟩)
  | none => (pending, none)

/-- Match a literal character sequence at the head of a list, returning the
remainder on success. -/
def dropLit : List Char → List Char → Option (List Char)
  | [], l => some l
  | _ :: _, [] => none
  | c :: cs, x :: xs => if c == x then dropLit cs xs else none

/-- `String.prototype.startsWith` on character lists. -/
def startsWithSeq (l pre : List Char) : Bool := (dropLit pre l).isSome

/-- `String.prototype.includes` on character lists. -/
def containsSeq (haystack needle : List Char) : Bool :=
  match haystack with
  | [] => needle.isEmpty
  | _ :: t => startsWithSeq haystack needle || containsSeq t needle

/-- `text.replace(/^(?:yes|approve)\s+/i, "").trim()` on the already
lowercased, trimmed text (the two alternatives cannot both apply). -/
def stripApprovalLead (text : List Char) : List Char :=
  let afterWord (rest : List Char) : Option (List Char) :=
    match rest with
    | c :: cs => if isJsWhitespace c then some (cs.dropWhile isJsWhitespace) else none
    | [] => none
  let viaYes :=
    match dropLit "yes".toList text with
    | some rest => afterWord rest
    | none => none
  let viaApprove :=
    match dropLit "approve".toList text with
    | some rest => afterWord rest
    | none => none
  jsTrimChars ((viaYes.orElse (fun _ => viaApprove)).getD text)

/-- The per-entry loop of the forwarder's inbound-message handler
(forwarder.ts lines 50–88); `size` is `pending.size`, constant during the
scan. Returns the first resolved entry's id, decision, and instructions. -/
def inboundScan (size : Nat) (text : List Char) :
    List (String × FwdPending) → Option (String × ConductorDecision × Option (List Char))
  | [] => none
  | (requestId, _entry) :: rest =>
      let matchesId := containsSeq text (requestId.take 8).toList
      let isApproval := text == "yes".toList || text == "approve".toList ||
        text == "go".toList || text == "y".toList || startsWithSeq text "yes ".toList
      let isDenial := text == "no".toList || text == "deny".toList ||
        text == "n".toList || startsWithSeq text "no ".toList
      let hasInstructions := startsWithSeq text "yes ".toList ||
        startsWithSeq text "approve ".toList
      if matchesId || (size == 1 && (isApproval || isDenial)) then
        let approved := isApproval || (matchesId && !isDenial)
        let decision : ConductorDecision :=
          if approved then
            (if hasInstructions then .approveWithInstructions else .approve)
          else .deny
        let instructions : Option (List Char) :=
          if approved && hasInstructions then some (stripApprovalLead text) else none
        some (requestId, decision, instructions)
      else inboundScan size text rest

/-- The forwarder's inbound-message handler: normalize the text, scan the
pending entries, and on a match clear the entry and build the authorization
delivered to subscribers. -/
def handleInboundMessage (now : Nat) (pending : List (String × FwdPending))
    (channel frm text : String) :
    List (String × FwdPending) × Option ConductorAuthorization :=
  let t := normalizeMsg text
  match inboundScan pending.length t pending with
  | none => (pending, none)
  | some (requestId, decision, instructions) =>
      (mapDelete pending requestId,
       some ⟨requestId, decision, instructions.map (fun l => ⟨l⟩),
             some (channel ++ ":" ++ frm), now⟩)

-- ---------------------------------------------------------------------------
-- Analyzer ANSI stripping (analyzer.ts stripAnsi)
-- ---------------------------------------------------------------------------

/-- The `[0-9;]` character class. -/
def isParamChar (c : Char) : Bool := ('0' ≤ c && c ≤ '9') || c = ';'

/-- The `[a-zA-Z]` character class. -/
def isAsciiLetter (c : Char) : Bool := ('a' ≤ c && c ≤ 'z') || ('A' ≤ c && c ≤ 'Z')

/-- JS regex line terminators, which `.` does not match. -/
def isLineTerminator (c : Char) : Bool :=
  c = '\n' || c = '\r' || c = '\u2028' || c = '\u2029'

/-- After `ESC [`, consume `[0-9;]*` then one `[a-zA-Z]`; returns the suffix
after the match (with a length certificate for termination). -/
def csiParams : (l : List Char) → Option { r : List Char // r.length < l.length }
  | [] => none
  | c :: rest =>
      if isParamChar c then
        match csiParams rest with
        | some ⟨r, h⟩ => some ⟨r, Nat.lt_succ_of_lt h⟩
        | none => none
      else if isAsciiLetter c then some ⟨rest, Nat.lt_succ_self _⟩
      else none

/-- Try to match the tail of `/\x1B\[[0-9;]*[a-zA-Z]/` after the `ESC`. -/
def csiTail : (l : List Char) → Option { r : List Char // r.length < l.length }
  | '[' :: rest =>
      match csiParams rest with
      | some ⟨r, h⟩ => some ⟨r, Nat.lt_succ_of_lt h⟩
      | none => none
  | _ => none

/-- `text.replace(/\x1B\[[0-9;]*[a-zA-Z]/g, "")`: global scan; only an `ESC`
can start a match, and the character classes are disjoint, so matching is
deterministic. -/
def stripCsi : List Char → List Char
  | [] => []
  | c :: rest =>
      if c = '\x1B' then
        match csiTail rest with
        | some r => stripCsi r.1
        | none => c :: stripCsi rest
      else c :: stripCsi rest
termination_by l => l.length
decreasing_by
  · exact Nat.lt_trans r.2 (Nat.lt_succ_self _)
  · exact Nat.lt_succ_self _
  · exact Nat.lt_succ_self _

/-- After `ESC ]`, the lazy `.*?\x07`: scan to the first `BEL`; fail on a line
terminator (which `.` cannot match) or end of input. -/
def oscBody : (l : List Char) → Option { r : List Char // r.length < l.length }
  | [] => none
  | c :: rest =>
      if c = '\x07' then some ⟨rest, Nat.lt_succ_self _⟩
      else if isLineTerminator c then none
      else
        match oscBody rest with
        | some ⟨r, h⟩ => some ⟨r, Nat.lt_succ_of_lt h⟩
        | none => none

/-- Try to match the tail of `/\x1B\].*?\x07/` after the `ESC`. -/
def oscTail : (l : List Char) → Option { r : List Char // r.length < l.length }
  | ']' :: rest =>
      match oscBody rest with
      | some ⟨r, h⟩ => some ⟨r, Nat.lt_succ_of_lt h⟩
      | none => none
  | _ => none

/-- `text.replace(/\x1B\].*?\x07/g, "")`. -/
def stripOsc : List Char → List Char
  | [] => []
  | c :: rest =>
      if c = '\x1B' then
        match oscTail rest with
        | some r => stripOsc r.1
        | none => c :: stripOsc rest
      else c :: stripOsc rest
termination_by l => l.length
decreasing_by
  · exact Nat.lt_trans r.2 (Nat.lt_succ_self _)
  · exact Nat.lt_succ_self _
  · exact Nat.lt_succ_self _

/-- `stripAnsi` from analyzer.ts: the CSI replace, then the OSC replace. -/
def stripAnsi (s : String) : String := ⟨stripOsc (stripCsi s.toList)⟩

-- ---------------------------------------------------------------------------
-- Auto-approve / auto-deny rules (conductor.ts matchGlob / checkAutoRules)
-- ---------------------------------------------------------------------------

/-- The regex built by `matchGlob`: every pattern character is either an
escaped literal, or `*` ↦ `.*`, or `?` ↦ `.` (all regex metacharacters other
than `*` and `?` are escaped first). -/
inductive GlobTok where
  | lit (c : Char)
  | anyStar
  | anyOne
deriving DecidableEq, Repr

/-- Tokenize a glob pattern character-wise. -/
def globTokens (pattern : List Char) : List GlobTok :=
  pattern.map (fun c => if c = '*' then .anyStar else if c = '?' then .anyOne else .lit c)

/-- Case-insensitive character comparison (the regex `i` flag; ASCII). -/
def charEqCI (a b : Char) : Bool := a.toLower == b.toLower

/-- Anchored matching of the tokenized glob (`^…$`), with the standard
backtracking semantics of `.*`. -/
def globMatch : List GlobTok → List Char → Bool
  | [], [] => true
  | [], _ :: _ => false
  | .lit _ :: _, [] => false
  | .lit c :: ts, x :: xs => charEqCI c x && globMatch ts xs
  | .anyOne :: _, [] => false
  | .anyOne :: ts, _ :: xs => globMatch ts xs
  | .anyStar :: ts, [] => globMatch ts []
  | .anyStar :: ts, x :: xs => globMatch ts (x :: xs) || globMatch (.anyStar :: ts) xs
termination_by ts l => (ts.length, l.length)

/-- `matchGlob` from conductor.ts. -/
def matchGlob (pattern value : String) : Bool :=
  globMatch (globTokens pattern.toList) value.toList

/-- The value returned by `checkAutoRules` when a rule fires. -/
inductive AutoDecision where
  | approve
  | deny
deriving DecidableEq, Repr

/-- The first-match loop over one pattern list. -/
def anyGlobMatches (patterns : List String) (url : String) : Bool :=
  match patterns with
  | [] => false
  | p :: ps => matchGlob p url || anyGlobMatches ps url

/-- `Conductor.checkAutoRules` from conductor.ts: deny patterns are evaluated
before approve patterns; `if (!url) return null` treats an empty URL string
as absent. -/
def checkAutoRules (cfg : ConductorAuthConfig) (request : ExternalAccessRequest) :
    Option AutoDecision :=
  match request.url with
  | none => none
  | some url =>
      if url.isEmpty then none
      else if anyGlobMatches (cfg.autoDenyPatterns.getD []) url then some .deny
      else if anyGlobMatches (cfg.autoApprovePatterns.getD []) url then some .approve
      else none

-- ---------------------------------------------------------------------------
-- Gateway RPC handlers (src/gateway/server-methods/conductor.ts)
-- ---------------------------------------------------------------------------

/-- `ConductorPendingEntry` from the gateway handlers (the `resolve` waker is
modelled by the request-side continuation folded into `conductorResolve`). -/
structure GwPendingEntry where
  id : String
  kind : String
  summary : String
  url : Option String := none
  createdAtMs : Nat
  expiresAtMs : Nat
deriving DecidableEq, Repr

/-- `ConductorHistoryEntry` from the gateway handlers. -/
structure GwHistoryEntry where
  id : String
  kind : String
  summary : String
  decision : String
  resolvedBy : Option String := none
  completedAtMs : Nat
deriving DecidableEq, Repr

/-- The gateway module's shared state (`conductorPending`, `conductorHistory`). -/
structure GwState where
  conductorPending : List (String × GwPendingEntry) := []
  conductorHistory : List GwHistoryEntry := []
deriving DecidableEq, Repr

/-- `ConductorResolveParams`. Absent (`undefined`) strings are modelled as
`""`, which is what the handler's falsiness checks treat them as. -/
structure ConductorResolveParams where
  id : String
  decision : String
  instructions : Option String := none
deriving DecidableEq, Repr

/-- The `respond(...)` outcome of `conductor.resolve`: success, or an
`INVALID_REQUEST` error shape with a message. -/
inductive GwResponse where
  | ok
  | invalidRequest (message : String)
deriving DecidableEq, Repr

/-- The `conductor.resolve` gateway handler. A successful resolve calls
`entry.resolve`, which fulfils the `decisionPromise` awaited inside
`conductor.request`; that continuation (clear timer, delete the pending
entry, push history) runs as a microtask before any later gateway message is
dispatched, so it is folded into this step. -/
def conductorResolve (now : Nat) (s : GwState) (p : ConductorResolveParams) :
    GwState × GwResponse :=
  if p.id == "" || p.decision == "" then
    (s, .invalidRequest "id and decision required")
  else if p.decision != "approve" && p.decision != "deny" &&
      p.decision != "approve-with-instructions" then
    (s, .invalidRequest "invalid decision")
  else
    match mapGet s.conductorPending p.id with
    | none => (s, .invalidRequest "unknown request id")
    | some entry =>
        ({ conductorPending := mapDelete s.conductorPending p.id,
           conductorHistory := s.conductorHistory ++
             [⟨p.id, entry.kind, entry.summary, p.decision, none, now⟩] },
         .ok)

-- ---------------------------------------------------------------------------
-- Browser executor (src/conductor/browser-executor.ts)
-- ---------------------------------------------------------------------------

/-- `a.type === "navigate"`. -/
def isNavigateAction : BrowserAction → Bool
  | .navigate _ => true
  | _ => false

/-- `a.type === "screenshot"`. -/
def isScreenshotAction : BrowserAction → Bool
  | .screenshot _ => true
  | _ => false

/-- `String.prototype.includes` on strings. -/
def strIncludes (haystack needle : String) : Bool :=
  containsSeq haystack.toList needle.toList

/-- `resolveActions` from browser-executor.ts: suggested actions, else a
`navigate`+`extract-text` pair synthesised from the URL, then operator
instruction overrides. -/
def resolveActions (request : ExternalAccessRequest)
    (authorization : ConductorAuthorization) : List BrowserAction :=
  let actions := request.suggestedActions.getD []
  let actions :=
    if actions.isEmpty && truthy request.url then
      [BrowserAction.navigate (request.url.getD ""), BrowserAction.extractText none]
    else actions
  if truthy authorization.instructions then
    let instructions := (authorization.instructions.getD "").toLower
    if strIncludes instructions "only screenshot" ||
        strIncludes instructions "just screenshot" then
      match actions.find? isNavigateAction with
      | some navAction => [navAction, .screenshot none]
      | none => [.screenshot none]
    else if strIncludes instructions "only fetch" ||
        strIncludes instructions "just fetch" then
      match actions.find? isNavigateAction with
      | some navAction => [navAction, .extractText none]
      | none => [.extractText none]
    else actions
  else actions

/-- A runner for single browser actions, standing for `executeAction` with its
browser-plane I/O: `.error` models a rejected promise (thrown error). -/
def ActionRunner : Type := BrowserAction → Except String BrowserActionResult

/-- The action loop of `createBrowserExecutor(...).execute`: push each result;
a returned unsuccessful `navigate` breaks the loop; a thrown error pushes a
synthesised failed result and continues. -/
def executeLoop (runAction : ActionRunner) : List BrowserAction → List BrowserActionResult
  | [] => []
  | action :: rest =>
      match runAction action with
      | .ok result =>
          if !result.success && isNavigateAction action then [result]
          else result :: executeLoop runAction rest
      | .error err =>
          ⟨action, false, none, none, some err⟩ :: executeLoop runAction rest

/-- `createBrowserExecutor(...).execute` from browser-executor.ts:
early-return on an empty action list, the action loop, then the best-effort
trailing screenshot when configured and no screenshot action was listed. -/
def execute (runAction : ActionRunner) (captureScreenshots : Bool)
    (request : ExternalAccessRequest) (authorization : ConductorAuthorization) :
    List BrowserActionResult :=
  let actions := resolveActions request authorization
  if actions.isEmpty then []
  else
    let results := executeLoop runAction actions
    if captureScreenshots && !(actions.any isScreenshotAction) then
      match runAction (.screenshot none) with
      | .ok screenshotResult => results ++ [screenshotResult]
      | .error _ => results
    else results

-- ---------------------------------------------------------------------------
-- Concrete fixtures used by the theorems below
-- ---------------------------------------------------------------------------

/-- A detected service-action request (scenario: "Please open the Railway
dashboard"). -/
def exRequest : ExternalAccessRequest :=
  { id := "req-12345678", kind := .serviceAction, summary := "Open the Railway dashboard",
    rawOutput := "Please open the Railway dashboard and find the database URL.",
    service := some "Railway", createdAtMs := 10, expiresAtMs := 120010 }

/-- A credential-fetch request (scenario: "I need the API_KEY from Vercel"). -/
def exVercelRequest : ExternalAccessRequest :=
  { id := "req-87654321", kind := .credentialFetch,
    summary := "Fetch credentials from Vercel",
    rawOutput := "I need the API_KEY from Vercel to continue.",
    service := some "Vercel", createdAtMs := 0, expiresAtMs := 120000 }

/-- The authorization the forwarder's timer emits for `exRequest` on timeout. -/
def exTimeoutAuth : ConductorAuthorization :=
  { requestId := "req-12345678", decision := .deny, resolvedBy := some "timeout",
    resolvedAtMs := 120510 }

/-- An operator approval for `exRequest`. -/
def exApproveAuth : ConductorAuthorization :=
  { requestId := "req-12345678", decision := .approve,
    resolvedBy := some "telegram:op1", resolvedAtMs := 60000 }

/-- A later duplicate approval for the same request id from another resolver. -/
def exDupAuth : ConductorAuthorization :=
  { requestId := "req-12345678", decision := .approve,
    resolvedBy := some "discord:op2", resolvedAtMs := 61000 }

/-- Orchestrator state with `exRequest` pending. -/
def exPendingState : ConductorState := { pending := [("req-12345678", exRequest)] }

/-- Forwarder configuration whose target list is empty. -/
def exEmptyTargetsCfg : ConductorAuthConfig := { targets := some [] }

/-- Forwarder configuration with one messaging target. -/
def exOneTargetCfg : ConductorAuthConfig :=
  { targets := some [{ channel := "telegram", toId := "op1" }] }

/-- A forwarder pending entry for `exRequest`. -/
def exFwdPending : FwdPending := { request := exRequest, timerMs := 120000 }

/-- Auto-rule configuration where the URL `https://x.com` matches a deny glob
and an approve glob. -/
def exBothGlobCfg : ConductorAuthConfig :=
  { autoApprovePatterns := some ["https://x.com"],
    autoDenyPatterns := some ["https://*"] }

/-- Auto-rule configuration where `*` appears in both pattern lists. -/
def exStarGlobCfg : ConductorAuthConfig :=
  { autoApprovePatterns := some ["*"], autoDenyPatterns := some ["*"] }

/-- `exRequest` with URL `https://x.com`. -/
def exUrlRequest : ExternalAccessRequest := { exRequest with url := some "https://x.com" }

/-- `exRequest` with an empty URL string. -/
def exEmptyUrlRequest : ExternalAccessRequest := { exRequest with url := some "" }

/-- A gateway pending entry (RPC scenario: "open portal"). -/
def exGwEntry : GwPendingEntry :=
  { id := "id1", kind := "unknown", summary := "open portal",
    url := some "https://x.test", createdAtMs := 0, expiresAtMs := 120000 }

/-- Gateway state with `exGwEntry` pending. -/
def exGwState : GwState := { conductorPending := [("id1", exGwEntry)] }

/-- Resolve parameters approving `id1`. -/
def exResolveParams : ConductorResolveParams := { id := "id1", decision := "approve" }

/-- A second resolve for the same id from another client. -/
def exLateResolveParams : ConductorResolveParams := { id := "id1", decision := "deny" }

/-- A request that resolves to no browser actions (no suggested actions, no
URL). -/
def exNoActionRequest : ExternalAccessRequest :=
  { exRequest with id := "req-empty", url := none, suggestedActions := none }

/-- A request whose actions are synthesised from its URL. -/
def exNavRequest : ExternalAccessRequest :=
  { exRequest with id := "req-nav", url := some "https://a.test", suggestedActions := none }

/-- An action runner for which every action (screenshots included) succeeds. -/
def exAlwaysOkRunner : ActionRunner :=
  fun a => .ok { action := a, success := true, data := some "ok" }

/-- An action runner for which `navigate` returns an unsuccessful result and
everything else succeeds. -/
def exNavFailRunner : ActionRunner := fun a =>
  match a with
  | .navigate _ => .ok { action := a, success := false, error := some "net down" }
  | _ => .ok { action := a, success := true, data := some "d" }

-- ---------------------------------------------------------------------------
-- Helper lemmas
-- ---------------------------------------------------------------------------

/-- Looking a key up after deleting it finds nothing. -/
theorem mapGet_mapDelete {α : Type} (l : List (String × α)) (k : String) :
    mapGet (mapDelete l k) k = none := by
  induction l with
  | nil => rfl
  | cons p t ih =>
      by_cases h : p.1 = k
      · simp [mapGet, mapDelete, h]
      · simp [mapGet, mapDelete, h]

/-- Looking a key up right after setting it finds the new value. -/
theorem mapGet_mapSet {α : Type} (l : List (String × α)) (k : String) (v : α) :
    mapGet (mapSet l k v) k = some v := by
  unfold mapSet
  by_cases h : l.any (fun p => p.1 == k)
  · rw [if_pos h]
    induction l with
    | nil => simp at h
    | cons p t ih =>
        by_cases hp : p.1 = k
        · simp [mapGet, hp]
        · have h' : t.any (fun p => p.1 == k) := by simpa [hp] using h
          simpa [mapGet, hp] using ih h'
  · rw [if_neg h]
    induction l with
    | nil => simp [mapGet]
    | cons p t ih =>
        have hp : ¬p.1 = k := by
          intro e
          exact h (by simp [e])
        have h' : ¬t.any (fun p => p.1 == k) := by
          intro e
          exact h (by simp [e])
        simpa [mapGet, hp] using ih h'

/-- `handleAuthorization` for an id that is not pending does nothing. -/
theorem handleAuthorization_not_pending (exec : Executor) (now : Nat)
    (s : ConductorState) (auth : ConductorAuthorization)
    (h : mapGet s.pending auth.requestId = none) :
    handleAuthorization exec now s auth = (s, noEffects) := by
  unfold handleAuthorization
  rw [h]

/-- `executeAndInject` never touches the pending map. -/
theorem executeAndInject_pending (exec : Executor) (now : Nat) (s : ConductorState)
    (request : ExternalAccessRequest) (auth : ConductorAuthorization) :
    (executeAndInject exec now s request auth).1.pending = s.pending := by
  unfold executeAndInject
  cases exec request auth <;> rfl

/-- After `handleAuthorization`, the handled id is never still pending. -/
theorem handleAuthorization_pending_none (exec : Executor) (now : Nat)
    (s : ConductorState) (auth : ConductorAuthorization) :
    mapGet (handleAuthorization exec now s auth).1.pending auth.requestId = none := by
  unfold handleAuthorization
  cases h : mapGet s.pending auth.requestId with
  | none => simpa using h
  | some request =>
      cases hd : auth.decision
      · simpa [executeAndInject_pending] using mapGet_mapDelete s.pending auth.requestId
      · simpa using mapGet_mapDelete s.pending auth.requestId
      · simpa [executeAndInject_pending] using mapGet_mapDelete s.pending auth.requestId

-- ---------------------------------------------------------------------------
-- C1
-- ---------------------------------------------------------------------------

/-- C1: the orchestrator resolves each request id at most once.
`handleAuthorization` removes the id from the pending map before acting, so
after one run the id is no longer pending, and a later duplicate
authorization for the same id (any decision, any resolver) performs no
execution, no injection, and appends no history record: it returns the state
unchanged with empty effects. -/
theorem handleAuthorization_at_most_once (exec : Executor) (now now' : Nat)
    (s : ConductorState) (auth auth' : ConductorAuthorization)
    (hid : auth'.requestId = auth.requestId) :
    mapGet (handleAuthorization exec now s auth).1.pending auth.requestId = none ∧
    handleAuthorization exec now' (handleAuthorization exec now s auth).1 auth' =
      ((handleAuthorization exec now s auth).1, noEffects) := by
  refine ⟨handleAuthorization_pending_none exec now s auth, ?_⟩
  apply handleAuthorization_not_pending
  rw [hid]
  exact handleAuthorization_pending_none exec now s auth

/-- C1 witness: a pending request approved once; the duplicate approval from a
second resolver is a no-op. -/
theorem handleAuthorization_at_most_once_witness :
    exDupAuth.requestId = exApproveAuth.requestId ∧
    (mapGet (handleAuthorization stubExecutor 60000 exPendingState exApproveAuth).1.pending
        exApproveAuth.requestId = none ∧
      handleAuthorization stubExecutor 61000
          (handleAuthorization stubExecutor 60000 exPendingState exApproveAuth).1 exDupAuth =
        ((handleAuthorization stubExecutor 60000 exPendingState exApproveAuth).1, noEffects)) :=
  ⟨rfl, handleAuthorization_at_most_once stubExecutor 60000 61000 exPendingState
    exApproveAuth exDupAuth rfl⟩

-- ---------------------------------------------------------------------------
-- C2
-- ---------------------------------------------------------------------------

/-- C2 (evaluating the code at the failing input): the forwarder's timeout
timer emits `deny / resolvedBy "timeout"`, but `handleAuthorization` routes
every deny to `injectDenial` with reason `"operator denied"`, so the payload
written to the worker's stdin is the denial sentence, not the timeout
sentence produced by the never-called `injectTimeout`. -/
theorem timeout_receives_denial_sentence :
    (fireTimeout 120510 [("req-12345678", exFwdPending)] "req-12345678").2 =
      some exTimeoutAuth ∧
    (handleAuthorization stubExecutor 120510 exPendingState exTimeoutAuth).2.writes =
      ["\n",
       "[Aether] Request denied: Open the Railway dashboard â€” operator denied. Proceeding without external access.\n",
       "\n"] ∧
    (injectTimeout 120510 exRequest).2 =
      ["\n",
       "[Aether] Authorization timed out for: Open the Railway dashboard. Proceeding without external access.\n",
       "\n"] ∧
    (handleAuthorization stubExecutor 120510 exPendingState exTimeoutAuth).2.writes ≠
      (injectTimeout 120510 exRequest).2 :=
  ⟨rfl, rfl, rfl, by decide⟩

-- ---------------------------------------------------------------------------
-- C3
-- ---------------------------------------------------------------------------

/-- C3 (evaluating the code at the failing input): the byte stream written by
the denial injection for summary `Fetch credentials from Vercel`, reason
`operator denied`, contains the mojibake sequence U+00E2 U+20AC U+201D where
the spec requires an em-dash U+2014, so it differs from the spec's bit-exact
template. -/
theorem denial_injection_bytes :
    String.join (injectDenial 5 exVercelRequest (some "operator denied")).2 =
      "\n[Aether] Request denied: Fetch credentials from Vercel â€” operator denied. Proceeding without external access.\n\n" ∧
    String.join (injectDenial 5 exVercelRequest (some "operator denied")).2 ≠
      "\n[Aether] Request denied: Fetch credentials from Vercel — operator denied. Proceeding without external access.\n\n" :=
  ⟨rfl, by decide⟩

-- ---------------------------------------------------------------------------
-- C9
-- ---------------------------------------------------------------------------

/-- C9: `injectResults` reports success iff at least one action result
succeeded; the stub executor resolves with the empty result list, and the
injection for an empty result list reports `success = false`. -/
theorem injectResults_success_iff (now : Nat) (request : ExternalAccessRequest)
    (auth : ConductorAuthorization) (results : List BrowserActionResult) :
    ((injectResults now request results).1.success = true ↔
      ∃ r ∈ results, r.success = true) ∧
    stubExecutor request auth = .ok [] ∧
    (injectResults now request []).1.success = false := by
  refine ⟨?_, rfl, rfl⟩
  simp [injectResults, List.any_eq_true]

-- ---------------------------------------------------------------------------
-- C4
-- ---------------------------------------------------------------------------

/-- C4 counterexample: with an empty configured target list,
`requestAuthorization` returns before registering anything — no timer, no
send, and the request is not added to the forwarder's pending set —
contradicting the claim's "including when the configured target list is
empty". -/
theorem requestAuthorization_empty_targets_registers_nothing :
    exEmptyTargetsCfg.targets.getD [] = [] ∧
    (requestAuthorization exEmptyTargetsCfg 0 [] exRequest).2.timerRegistered = none ∧
    (requestAuthorization exEmptyTargetsCfg 0 [] exRequest).2.sends = [] ∧
    (requestAuthorization exEmptyTargetsCfg 0 [] exRequest).1 = [] :=
  ⟨rfl, rfl, rfl, rfl⟩

/-- C4 amended: for every request passed to `requestAuthorization` while at
least one target is configured, a timeout timer of `auth.timeoutMs`
(default 120000) is registered and the request is added to the forwarder's
pending set; firing that timer then resolves the request with a deny
authorization `resolvedBy "timeout"`. With an empty target list the call
returns early and registers neither. -/
theorem requestAuthorization_registers (cfg : ConductorAuthConfig)
    (now now' : Nat) (pending : List (String × FwdPending))
    (request : ExternalAccessRequest)
    (h : cfg.targets.getD [] ≠ []) :
    (requestAuthorization cfg now pending request).2.timerRegistered =
      some (cfg.timeoutMs.getD 120000) ∧
    mapGet (requestAuthorization cfg now pending request).1 request.id =
      some { request := request, timerMs := cfg.timeoutMs.getD 120000 } ∧
    (fireTimeout now' (requestAuthorization cfg now pending request).1 request.id).2 =
      some { requestId := request.id, decision := .deny, instructions := none,
             resolvedBy := some "timeout", resolvedAtMs := now' } := by
  have hne : (cfg.targets.getD []).isEmpty = false := by
    cases hT : cfg.targets.getD [] with
    | nil => exact absurd hT h
    | cons a t => rfl
  unfold requestAuthorization fireTimeout
  simp [hne, mapGet_mapSet]

/-- C4 witness: one configured target; the timer and pending entry are
registered and the timeout path resolves the request. -/
theorem requestAuthorization_registers_witness :
    exOneTargetCfg.targets.getD [] ≠ [] ∧
    ((requestAuthorization exOneTargetCfg 10 [] exRequest).2.timerRegistered =
        some 120000 ∧
      mapGet (requestAuthorization exOneTargetCfg 10 [] exRequest).1 exRequest.id =
        some { request := exRequest, timerMs := 120000 } ∧
      (fireTimeout 120510 (requestAuthorization exOneTargetCfg 10 [] exRequest).1
          exRequest.id).2 =
        some { requestId := exRequest.id, decision := .deny, instructions := none,
               resolvedBy := some "timeout", resolvedAtMs := 120510 }) :=
  ⟨by decide,
   requestAuthorization_registers exOneTargetCfg 10 120510 [] exRequest (by decide)⟩

-- ---------------------------------------------------------------------------
-- C5
-- ---------------------------------------------------------------------------

/-- C5 counterexample: with exactly one pending request whose short id does
not occur in the message, an inbound message whose trimmed lowercased text
starts with `"approve "` does not count as an approval (`isApproval` only
checks the `"yes "` prefix) and resolves nothing: the pending set is
unchanged and no authorization is emitted. -/
theorem inbound_approve_without_id_unresolved :
    startsWithSeq (normalizeMsg "approve use the staging key") "approve ".toList = true ∧
    handleInboundMessage 77 [("req-12345678", exFwdPending)] "telegram" "op1"
        "approve use the staging key" =
      ([("req-12345678", exFwdPending)], none) :=
  ⟨rfl, rfl⟩

/-- C5 amended: an inbound message whose trimmed lowercased text starts with
`"yes "` counts as an approval and, with exactly one pending request,
resolves it with decision approve-with-instructions and instructions equal
to the text with the prefix and following whitespace stripped and trimmed; a
text starting with `"approve "` resolves the same way only when it contains
the first 8 characters of the pending request id. -/
theorem inbound_yes_resolves_approve_needs_id (rid : String) (pe : FwdPending)
    (now : Nat) (channel frm raw : String) (rest : List Char) :
    (normalizeMsg raw = 'y' :: 'e' :: 's' :: ' ' :: rest →
      handleInboundMessage now [(rid, pe)] channel frm raw =
        ([], some { requestId := rid, decision := .approveWithInstructions,
                    instructions := some ⟨jsTrimChars (rest.dropWhile isJsWhitespace)⟩,
                    resolvedBy := some (channel ++ ":" ++ frm), resolvedAtMs := now })) ∧
    (normalizeMsg raw = 'a' :: 'p' :: 'p' :: 'r' :: 'o' :: 'v' :: 'e' :: ' ' :: rest →
      containsSeq ('a' :: 'p' :: 'p' :: 'r' :: 'o' :: 'v' :: 'e' :: ' ' :: rest)
          (rid.toList.take 8) = true →
      handleInboundMessage now [(rid, pe)] channel frm raw =
        ([], some { requestId := rid, decision := .approveWithInstructions,
                    instructions := some ⟨jsTrimChars (rest.dropWhile isJsWhitespace)⟩,
                    resolvedBy := some (channel ++ ":" ++ frm), resolvedAtMs := now })) := by
  constructor
  · intro h
    unfold handleInboundMessage
    rw [h]
    simp [inboundScan, startsWithSeq, dropLit, stripApprovalLead, mapDelete,
      isJsWhitespace]
  · intro h hmid
    have hmid' : containsSeq ('a' :: 'p' :: 'p' :: 'r' :: 'o' :: 'v' :: 'e' :: ' ' :: rest)
        (List.take 8 rid.data) = true := hmid
    unfold handleInboundMessage
    rw [h]
    simp [inboundScan, startsWithSeq, dropLit, stripApprovalLead, mapDelete,
      isJsWhitespace, hmid']

/-- C5 witness: a `"YES <instructions>"` message resolves the single pending
request with approve-with-instructions, and an `"approve <instructions>"`
message containing the short id does too. -/
theorem inbound_yes_resolves_witness :
    (normalizeMsg "YES fetch only the key" =
        'y' :: 'e' :: 's' :: ' ' :: "fetch only the key".toList ∧
      handleInboundMessage 77 [("req-12345678", exFwdPending)] "telegram" "op1"
          "YES fetch only the key" =
        ([], some { requestId := "req-12345678", decision := .approveWithInstructions,
                    instructions := some "fetch only the key",
                    resolvedBy := some "telegram:op1", resolvedAtMs := 77 })) ∧
    (normalizeMsg "Approve req-1234 do it" =
        'a' :: 'p' :: 'p' :: 'r' :: 'o' :: 'v' :: 'e' :: ' ' :: "req-1234 do it".toList ∧
      handleInboundMessage 78 [("req-12345678", exFwdPending)] "discord" "op2"
          "Approve req-1234 do it" =
        ([], some { requestId := "req-12345678", decision := .approveWithInstructions,
                    instructions := some "req-1234 do it",
                    resolvedBy := some "discord:op2", resolvedAtMs := 78 })) :=
  ⟨⟨rfl,
    (inbound_yes_resolves_approve_needs_id "req-12345678" exFwdPending 77 "telegram"
        "op1" "YES fetch only the key" "fetch only the key".toList).1 rfl⟩,
   ⟨rfl,
    (inbound_yes_resolves_approve_needs_id "req-12345678" exFwdPending 78 "discord"
        "op2" "Approve req-1234 do it" "req-1234 do it".toList).2 rfl rfl⟩⟩

-- ---------------------------------------------------------------------------
-- C6
-- ---------------------------------------------------------------------------

/-- C6 counterexample: a request whose URL is the empty string matched by
`*` in both pattern lists is short-circuited by the falsiness guard
`if (!url) return null`, so `checkAutoRules` returns `none`, not deny. -/
theorem checkAutoRules_empty_url_bypasses_rules :
    exEmptyUrlRequest.url = some "" ∧
    matchGlob "*" "" = true ∧
    exStarGlobCfg.autoDenyPatterns.getD [] = ["*"] ∧
    exStarGlobCfg.autoApprovePatterns.getD [] = ["*"] ∧
    checkAutoRules exStarGlobCfg exEmptyUrlRequest = none := by
  refine ⟨rfl, ?_, rfl, rfl, rfl⟩
  simp [matchGlob, globTokens, globMatch]

/-- C6 amended: for every request whose URL is non-empty and matches both
some `autoDenyPatterns` glob and some `autoApprovePatterns` glob, the
auto-rule evaluation returns deny, because the deny pattern list is scanned
before the approve pattern list. -/
theorem checkAutoRules_deny_precedence (cfg : ConductorAuthConfig)
    (request : ExternalAccessRequest) (url : String)
    (h1 : request.url = some url) (h2 : url.isEmpty = false)
    (hd : anyGlobMatches (cfg.autoDenyPatterns.getD []) url = true)
    (ha : anyGlobMatches (cfg.autoApprovePatterns.getD []) url = true) :
    checkAutoRules cfg request = some .deny := by
  unfold checkAutoRules
  rw [h1]
  simp [h2, hd]

/-- C6 witness: `https://x.com` matches the deny glob `https://*` and the
approve glob `https://x.com`, and the evaluation denies. -/
theorem checkAutoRules_deny_precedence_witness :
    exUrlRequest.url = some "https://x.com" ∧
    anyGlobMatches (exBothGlobCfg.autoDenyPatterns.getD []) "https://x.com" = true ∧
    anyGlobMatches (exBothGlobCfg.autoApprovePatterns.getD []) "https://x.com" = true ∧
    checkAutoRules exBothGlobCfg exUrlRequest = some .deny := by
  refine ⟨rfl, ?_, ?_, ?_⟩
  · simp [exBothGlobCfg, anyGlobMatches, matchGlob, globTokens, globMatch, charEqCI]
  · simp [exBothGlobCfg, anyGlobMatches, matchGlob, globTokens, globMatch, charEqCI]
  · exact checkAutoRules_deny_precedence exBothGlobCfg exUrlRequest "https://x.com" rfl rfl
      (by simp [exBothGlobCfg, anyGlobMatches, matchGlob, globTokens, globMatch, charEqCI])
      (by simp [exBothGlobCfg, anyGlobMatches, matchGlob, globTokens, globMatch, charEqCI])

-- ---------------------------------------------------------------------------
-- C7
-- ---------------------------------------------------------------------------

/-- The CSI pass is the identity on text without the escape character. -/
theorem stripCsi_no_esc (l : List Char) (h : '\x1B' ∉ l) : stripCsi l = l := by
  induction l with
  | nil => rw [stripCsi]
  | cons c t ih =>
      have hc : ¬(c = '\x1B') := fun e => h (by rw [e]; exact List.mem_cons_self _ _)
      have ht : '\x1B' ∉ t := fun hm => h (List.mem_cons_of_mem _ hm)
      rw [stripCsi, if_neg hc, ih ht]

/-- The OSC pass is the identity on text without the escape character. -/
theorem stripOsc_no_esc (l : List Char) (h : '\x1B' ∉ l) : stripOsc l = l := by
  induction l with
  | nil => rw [stripOsc]
  | cons c t ih =>
      have hc : ¬(c = '\x1B') := fun e => h (by rw [e]; exact List.mem_cons_self _ _)
      have ht : '\x1B' ∉ t := fun hm => h (List.mem_cons_of_mem _ hm)
      rw [stripOsc, if_neg hc, ih ht]

/-- C7 counterexample: `stripAnsi` is not idempotent. Removing the inner CSI
sequence of `ESC ESC [ 0 m [ 0 m` glues the leading `ESC` to the following
`[0m`, so a second strip removes what the first left behind. -/
theorem stripAnsi_not_idempotent :
    stripAnsi "\x1B\x1B[0m[0m" = "\x1B[0m" ∧
    stripAnsi (stripAnsi "\x1B\x1B[0m[0m") = "" ∧
    stripAnsi (stripAnsi "\x1B\x1B[0m[0m") ≠ stripAnsi "\x1B\x1B[0m[0m" := by
  have h1 : stripAnsi "\x1B\x1B[0m[0m" = "\x1B[0m" := by
    simp [stripAnsi, stripCsi, stripOsc, csiTail, csiParams, oscTail, oscBody,
      isParamChar, isAsciiLetter, isLineTerminator]
  have h2 : stripAnsi "\x1B[0m" = "" := by
    simp [stripAnsi, stripCsi, stripOsc, csiTail, csiParams, oscTail, oscBody,
      isParamChar, isAsciiLetter, isLineTerminator]
  refine ⟨h1, by rw [h1, h2], by rw [h1, h2]; decide⟩

/-- C7 amended: `stripAnsi` is idempotent on every input whose stripped
result no longer contains the escape character `0x1B` (on such outputs both
replaces are the identity); the counterexample shows this side condition is
necessary. -/
theorem stripAnsi_idempotent_of_no_esc (s : String)
    (h : '\x1B' ∉ (stripAnsi s).toList) :
    stripAnsi (stripAnsi s) = stripAnsi s := by
  have h' : '\x1B' ∉ stripOsc (stripCsi s.toList) := h
  show String.mk (stripOsc (stripCsi (stripOsc (stripCsi s.toList)))) =
    String.mk (stripOsc (stripCsi s.toList))
  rw [stripCsi_no_esc _ h', stripOsc_no_esc _ h']

/-- C7 witness: a string of plain text and one complete CSI sequence strips
to escape-free text, on which stripping is idempotent. -/
theorem stripAnsi_idempotent_witness :
    '\x1B' ∉ (stripAnsi "hello\x1B[31mred").toList ∧
    stripAnsi (stripAnsi "hello\x1B[31mred") = stripAnsi "hello\x1B[31mred" := by
  have hval : stripAnsi "hello\x1B[31mred" = "hellored" := by
    simp [stripAnsi, stripCsi, stripOsc, csiTail, csiParams, oscTail, oscBody,
      isParamChar, isAsciiLetter, isLineTerminator]
  have hmem : '\x1B' ∉ (stripAnsi "hello\x1B[31mred").toList := by
    rw [hval]; decide
  exact ⟨hmem, stripAnsi_idempotent_of_no_esc _ hmem⟩

-- ---------------------------------------------------------------------------
-- C8
-- ---------------------------------------------------------------------------

/-- C8: once a pending RPC request has been resolved by a first successful
`conductor.resolve` call, any subsequent `conductor.resolve` for the same id
(with any well-formed decision) finds no pending entry, returns the
unknown-request-id error, and leaves the gateway state unchanged. -/
theorem conductorResolve_second_is_unknown (now1 now2 : Nat) (s : GwState)
    (p q : ConductorResolveParams)
    (hfirst : (conductorResolve now1 s p).2 = .ok)
    (hq : q.id = p.id)
    (hqd : q.decision = "approve" ∨ q.decision = "deny" ∨
      q.decision = "approve-with-instructions") :
    conductorResolve now2 (conductorResolve now1 s p).1 q =
      ((conductorResolve now1 s p).1, .invalidRequest "unknown request id") := by
  unfold conductorResolve at hfirst
  by_cases h1 : (p.id == "" || p.decision == "") = true
  · rw [if_pos h1] at hfirst
    simp at hfirst
  · rw [if_neg h1] at hfirst
    by_cases h2 : (p.decision != "approve" && p.decision != "deny" &&
        p.decision != "approve-with-instructions") = true
    · rw [if_pos h2] at hfirst
      simp at hfirst
    · rw [if_neg h2] at hfirst
      cases hg : mapGet s.conductorPending p.id with
      | none =>
          rw [hg] at hfirst
          simp at hfirst
      | some entry =>
          have hS : (conductorResolve now1 s p).1 =
              { conductorPending := mapDelete s.conductorPending p.id,
                conductorHistory := s.conductorHistory ++
                  [⟨p.id, entry.kind, entry.summary, p.decision, none, now1⟩] } := by
            unfold conductorResolve
            rw [if_neg h1, if_neg h2, hg]
          have hpid : ¬(p.id == "") = true := fun hc => h1 (by simp [hc])
          rw [hS]
          unfold conductorResolve
          rcases hqd with hd | hd | hd <;>
            simp [hq, hd, mapGet_mapDelete, hpid]

/-- C8 witness: client B approves `id1`; a later deny for the same id gets
the unknown-request-id error and changes nothing. -/
theorem conductorResolve_second_is_unknown_witness :
    (conductorResolve 50 exGwState exResolveParams).2 = .ok ∧
    conductorResolve 51 (conductorResolve 50 exGwState exResolveParams).1
        exLateResolveParams =
      ((conductorResolve 50 exGwState exResolveParams).1,
        .invalidRequest "unknown request id") :=
  ⟨rfl, conductorResolve_second_is_unknown 50 51 exGwState exResolveParams
    exLateResolveParams rfl rfl (Or.inr (Or.inl rfl))⟩

-- ---------------------------------------------------------------------------
-- C10
-- ---------------------------------------------------------------------------

/-- C10 counterexample: when the resolved action list is empty (which contains
no screenshot action) and screenshots are enabled, `execute` returns `[]`
before the trailing-screenshot block, even though the screenshot runner would
succeed — no trailing screenshot is attempted or appended. -/
theorem execute_empty_actions_no_trailing_screenshot :
    resolveActions exNoActionRequest exApproveAuth = [] ∧
    (resolveActions exNoActionRequest exApproveAuth).any isScreenshotAction = false ∧
    exAlwaysOkRunner (.screenshot none) =
      .ok { action := .screenshot none, success := true, data := some "ok" } ∧
    execute exAlwaysOkRunner true exNoActionRequest exApproveAuth = [] ∧
    execute exAlwaysOkRunner true exNoActionRequest exApproveAuth ≠
      [{ action := .screenshot none, success := true, data := some "ok" }] :=
  ⟨rfl, rfl, rfl, rfl, by decide⟩

/-- C10 amended: when screenshots are enabled and the resolved action list is
non-empty and contains no screenshot action, `execute` runs the action loop
(including the short-circuit on a failed navigate) and then attempts exactly
one trailing screenshot, appending its result; only a thrown error from that
trailing screenshot is swallowed, leaving the loop results unchanged. -/
theorem execute_trailing_screenshot (runAction : ActionRunner)
    (request : ExternalAccessRequest) (authorization : ConductorAuthorization)
    (h1 : resolveActions request authorization ≠ [])
    (h2 : (resolveActions request authorization).any isScreenshotAction = false) :
    execute runAction true request authorization =
      executeLoop runAction (resolveActions request authorization) ++
        (match runAction (.screenshot none) with
         | .ok r => [r]
         | .error _ => []) := by
  unfold execute
  have hne : (resolveActions request authorization).isEmpty = false := by
    cases hR : resolveActions request authorization with
    | nil => exact absurd hR h1
    | cons a t => rfl
  cases hscr : runAction (.screenshot none) with
  | ok r => simp [hne, h2, hscr]
  | error e => simp [hne, h2, hscr]

/-- C10 witness: a navigate-then-extract plan whose navigate fails; the loop
stops after the failed navigate and the trailing screenshot result is still
appended. -/
theorem execute_trailing_screenshot_witness :
    resolveActions exNavRequest exApproveAuth ≠ [] ∧
    (resolveActions exNavRequest exApproveAuth).any isScreenshotAction = false ∧
    execute exNavFailRunner true exNavRequest exApproveAuth =
      executeLoop exNavFailRunner (resolveActions exNavRequest exApproveAuth) ++
        (match exNavFailRunner (.screenshot none) with
         | .ok r => [r]
         | .error _ => []) :=
  ⟨by decide, rfl,
   execute_trailing_screenshot exNavFailRunner exNavRequest exApproveAuth
     (by decide) rfl⟩
